import Mathlib

set_option linter.unusedVariables false

/-!
Verification development for the `ZhipuAILLM` adapter
(`src/project/llm/zhipuai_llm.py`).

The adapter merges configuration fields with a prompt and per-call
overrides into one request mapping, dispatches it to an external client
object, and normalises the client's answer into plain text, either from a
single structured payload or by aggregating streamed fragments.

The Python code is dynamically typed, so we embed it over a small model
of Python values (`PyVal`), with dict merging (`{**a, **b}`), subscript
access (`d[k]`, `xs[-1]`), truthiness tests (`if res:`) and `str.strip`
modelled explicitly.  Runtime failures (`KeyError`, `IndexError`,
`TypeError`, `NameError`, …) are modelled with `Except PyErr`.
-/

set_option autoImplicit false

namespace ZhipuSpec

/-- Python runtime errors that the embedded code can raise. -/
inductive PyErr where
  | keyError (k : String)
  | indexError
  | typeError
  | attributeError
  | nameError (n : String)
  | valueError (msg : String)
deriving Repr, DecidableEq

/-- A model of the Python values the adapter manipulates: strings,
booleans, `None`, integers, lists and string-keyed dicts. -/
inductive PyVal where
  | str (s : String)
  | bool (b : Bool)
  | none
  | int (n : Int)
  | list (xs : List PyVal)
  | dict (kvs : List (String × PyVal))
deriving Repr

/-- A Python dict with string keys, as an ordered association list.
A real Python dict never holds a duplicate key; `PyDictWF` states that. -/
abbrev PyDict := List (String × PyVal)

/-- Well-formedness of `PyDict`: keys are pairwise distinct, as in a
real Python dict. -/
def PyDictWF (d : PyDict) : Prop := (d.map Prod.fst).Nodup

instance (d : PyDict) : Decidable (PyDictWF d) := by
  unfold PyDictWF; infer_instance

/-- Dict lookup `d[k]` as an `Option` (first entry with the key). -/
def dictGet (d : PyDict) (k : String) : Option PyVal :=
  (d.find? (fun p => p.1 = k)).map (fun p => p.2)

/-- Dict update `d[k] = v`: replace the value of an existing key in
place, otherwise append the new entry — Python's dict-update order. -/
def dictSet : PyDict → String → PyVal → PyDict
  | [], k, v => [(k, v)]
  | p :: d, k, v => if p.1 = k then (k, v) :: d else p :: dictSet d k v

/-- Python's `{**a, **b}`: start from `a` and update with each entry of
`b` in order, so keys of `b` take precedence. -/
def dictMerge (a : PyDict) : PyDict → PyDict
  | [] => a
  | p :: b => dictMerge (dictSet a p.1 p.2) b

/-- Python truthiness (`if res:`). -/
def pyTruthy : PyVal → Bool
  | .str s => !s.isEmpty
  | .bool b => b
  | .none => false
  | .int n => n != 0
  | .list xs => !xs.isEmpty
  | .dict kvs => !kvs.isEmpty

/-- `v[k]` for a string key: dict lookup (`KeyError` when absent);
indexing a list by a string, or subscripting a non-container, is a
`TypeError`. -/
def pyGetKey (v : PyVal) (k : String) : Except PyErr PyVal :=
  match v with
  | .dict kvs =>
    match (kvs.find? (fun p => p.1 = k)).map (fun p => p.2) with
    | some x => .ok x
    | Option.none => .error (.keyError k)
  | _ => .error .typeError

/-- `xs[-1]`: last element of a list, `IndexError` on an empty list,
`TypeError` on a non-list. -/
def pyGetLast (v : PyVal) : Except PyErr PyVal :=
  match v with
  | .list xs =>
    match xs.getLast? with
    | some x => .ok x
    | Option.none => .error .indexError
  | _ => .error .typeError

/-- `for x in v`: lists iterate over their elements, strings over their
characters, dicts over their keys; anything else is a `TypeError`. -/
def pyIter (v : PyVal) : Except PyErr (List PyVal) :=
  match v with
  | .list xs => .ok xs
  | .str s => .ok (s.toList.map (fun c => .str (String.mk [c])))
  | .dict kvs => .ok (kvs.map (fun p => .str p.1))
  | _ => .error .typeError

/-- Python's `s.strip(chars)`: remove the longest prefix and suffix made
of characters from `chars`. -/
def pyStrip (s : String) (chars : List Char) : String :=
  String.mk
    (((s.toList.dropWhile (fun c => chars.contains c)).reverse.dropWhile
        (fun c => chars.contains c)).reverse)

/-- The Python value of an `Optional[bool]` field. -/
def pyOfOptBool : Option Bool → PyVal
  | some b => .bool b
  | Option.none => .none

/-- The configuration record of `ZhipuAILLM` (its pydantic fields).
Sampling values (`top_p`, `temperature`, `request_id`) are carried as
opaque `PyVal`s: the adapter only stores and forwards them. -/
structure ZhipuAILLM where
  model_kwargs : PyDict
  model : String
  zhipuai_api_key : Option String
  incremental : Option Bool
  streaming : Option Bool
  request_timeout : Option Int
  top_p : PyVal
  temperature : PyVal
  request_id : PyVal

/-- The external client object (`zhipuai.model_api`): its synchronous
entry point `invoke`, asynchronous entry point `async_invoke`, and
asynchronous streaming entry point `ado`, each taking the merged request
mapping.  `invoke` serves both the non-streaming path (returns a payload
to subscript) and the synchronous streaming path (returns a value to
iterate). -/
structure Client where
  invoke : PyDict → PyVal
  async_invoke : PyDict → PyVal
  ado : PyDict → PyVal

/-- `_default_params`: the base sampling parameters updated with the
configuration's extra keyword arguments (`{**normal_params,
**self.model_kwargs}`). -/
def ZhipuAILLM.defaultParams (self : ZhipuAILLM) : PyDict :=
  dictMerge
    [("streaming", pyOfOptBool self.streaming),
     ("top_p", self.top_p),
     ("temperature", self.temperature),
     ("request_id", self.request_id)]
    self.model_kwargs

/-- `_convert_prompt_msg_params`: `{**{"prompt": prompt, "model":
self.model}, **self._default_params, **kwargs}`. -/
def ZhipuAILLM.convertPromptMsgParams (self : ZhipuAILLM) (prompt : String)
    (kwargs : PyDict) : PyDict :=
  dictMerge
    (dictMerge [("prompt", .str prompt), ("model", .str self.model)]
      self.defaultParams)
    kwargs

/-- `if self.streaming:` — truthiness of the `Optional[bool]` field. -/
def ZhipuAILLM.streamingOn (self : ZhipuAILLM) : Bool :=
  pyTruthy (pyOfOptBool self.streaming)

/-- `GenerationChunk(text=res)`: the chunk text must be a string. -/
def chunkText (v : PyVal) : Except PyErr String :=
  match v with
  | .str s => .ok s
  | _ => .error .typeError

/-- Observable events of a streaming generator: a fragment yielded to
the consumer, and an `on_llm_new_token` callback invocation. -/
inductive StreamEv where
  | yielded (t : String)
  | callback (t : String)
deriving Repr, DecidableEq

/-- Loop body of `_stream`: for each item, if it is truthy, yield a
chunk with the item as its text and, when a run manager is present,
invoke the callback with that text; otherwise skip the item. -/
def streamLoop (rm : Bool) : List PyVal → Except PyErr (List StreamEv)
  | [] => .ok []
  | res :: rest =>
    if pyTruthy res then
      match chunkText res with
      | .error e => .error e
      | .ok t =>
        match streamLoop rm rest with
        | .error e => .error e
        | .ok evs =>
          .ok (StreamEv.yielded t ::
            ((if rm then [StreamEv.callback t] else []) ++ evs))
    else streamLoop rm rest

/-- `_stream`: build the request, call `self.client.invoke(**params)`,
and iterate it with `streamLoop`.  `stop` is accepted and unused, as in
the source.  `rm` records whether a `run_manager` callback was
supplied. -/
def ZhipuAILLM.streamEvents (self : ZhipuAILLM) (client : Client)
    (prompt : String) (stop : Option (List String)) (rm : Bool)
    (kwargs : PyDict) : Except PyErr (List StreamEv) :=
  let params := self.convertPromptMsgParams prompt kwargs
  match pyIter (client.invoke params) with
  | .error e => .error e
  | .ok items => streamLoop rm items

/-- The texts of the fragments a generator yielded, in order. -/
def yieldedTexts (evs : List StreamEv) : List String :=
  evs.filterMap (fun e =>
    match e with
    | .yielded t => some t
    | .callback _ => Option.none)

/-- The callback invocations of a generator run, in order. -/
def callbackTexts (evs : List StreamEv) : List String :=
  evs.filterMap (fun e =>
    match e with
    | .yielded _ => Option.none
    | .callback t => some t)

/-- `_call`: when streaming, concatenate the texts of all fragments of
`_stream`; otherwise build the request, call `client.invoke`, and return
`response["data"]["choices"][-1]["content"].strip('"').strip(" ")`. -/
def ZhipuAILLM.call (self : ZhipuAILLM) (client : Client) (prompt : String)
    (stop : Option (List String)) (rm : Bool) (kwargs : PyDict) :
    Except PyErr String :=
  if self.streamingOn then
    match self.streamEvents client prompt stop rm kwargs with
    | .error e => .error e
    | .ok evs => .ok (String.join (yieldedTexts evs))
  else
    let params := self.convertPromptMsgParams prompt kwargs
    let payload := client.invoke params
    match pyGetKey payload "data" with
    | .error e => .error e
    | .ok d =>
      match pyGetKey d "choices" with
      | .error e => .error e
      | .ok cs =>
        match pyGetLast cs with
        | .error e => .error e
        | .ok last =>
          match pyGetKey last "content" with
          | .error e => .error e
          | .ok content =>
            match content with
            | .str s => .ok (pyStrip (pyStrip s ['"']) [' '])
            | _ => .error .attributeError

/-- Loop body of `_astream`: for each truthy item, the chunk text is
`res["data"]["choices"]["content"]` — a string-keyed subscript on the
`choices` value — then yield and optionally invoke the callback. -/
def astreamLoop (rm : Bool) : List PyVal → Except PyErr (List StreamEv)
  | [] => .ok []
  | res :: rest =>
    if pyTruthy res then
      match
        (do
          let d ← pyGetKey res "data"
          let cs ← pyGetKey d "choices"
          pyGetKey cs "content") with
      | .error e => .error e
      | .ok contentVal =>
        match chunkText contentVal with
        | .error e => .error e
        | .ok t =>
          match astreamLoop rm rest with
          | .error e => .error e
          | .ok evs =>
            .ok (StreamEv.yielded t ::
              ((if rm then [StreamEv.callback t] else []) ++ evs))
    else astreamLoop rm rest

/-- `_astream`: build the request, `await self.client.ado(**params)`,
and iterate the result with `astreamLoop`. -/
def ZhipuAILLM.astreamEvents (self : ZhipuAILLM) (client : Client)
    (prompt : String) (stop : Option (List String)) (rm : Bool)
    (kwargs : PyDict) : Except PyErr (List StreamEv) :=
  let params := self.convertPromptMsgParams prompt kwargs
  match pyIter (client.ado params) with
  | .error e => .error e
  | .ok items => astreamLoop rm items

/-- `_acall`: when streaming, concatenate the fragments of `_astream`;
otherwise build the request, `await self.client.async_invoke(**params)`
into the local variable `response`, and `return response_payload` — a
name that is never assigned, so the statement raises
`NameError: name 'response_payload' is not defined`. -/
def ZhipuAILLM.acall (self : ZhipuAILLM) (client : Client) (prompt : String)
    (stop : Option (List String)) (rm : Bool) (kwargs : PyDict) :
    Except PyErr String :=
  if self.streamingOn then
    match self.astreamEvents client prompt stop rm kwargs with
    | .error e => .error e
    | .ok evs => .ok (String.join (yieldedTexts evs))
  else
    let params := self.convertPromptMsgParams prompt kwargs
    let _response := client.async_invoke params
    .error (.nameError "response_payload")

/-- A client item that is either a text fragment or `None` — the shapes
the synchronous streaming path distinguishes. -/
def isTextItem : PyVal → Bool
  | .str _ => true
  | .none => true
  | _ => false

/-- Observer: the string carried by an optional `PyVal`, if any.  Used
to state concrete facts about dict lookups. -/
def strOfVal : Option PyVal → Option String
  | some (.str s) => some s
  | _ => Option.none

/-- The item shape `_astream` expects from the asynchronous streaming
entry point: a payload whose `choices` value is itself a dict carrying
the `content` field. -/
def astreamItem (t : String) : PyVal :=
  .dict [("data", .dict [("choices", .dict [("content", .str t)])])]

/-- A configuration with the given extra keyword arguments, model name
and streaming flag; the remaining fields take the source defaults
(`zhipuai_api_key` unset, `incremental` true, `request_timeout` 60). -/
def mkCfg (mkw : PyDict) (model : String) (streaming : Option Bool) :
    ZhipuAILLM :=
  ⟨mkw, model, Option.none, some true, streaming, some 60,
    PyVal.none, PyVal.none, PyVal.none⟩

/-- Non-streaming configuration with no extra keyword arguments. -/
def cfgNS : ZhipuAILLM := mkCfg [] "chatglm_turbo" (some false)

/-- Streaming configuration with no extra keyword arguments. -/
def cfgS : ZhipuAILLM := mkCfg [] "chatglm_turbo" (some true)

/-- A client whose every entry point returns a payload with a single
choice carrying the given content. -/
def oneShotClient (content : String) : Client :=
  let payload : PyVal :=
    .dict [("data", .dict [("choices", .list [.dict [("content", .str content)]])])]
  ⟨fun _ => payload, fun _ => payload, fun _ => payload⟩

/-- A client whose every entry point returns the given list of items. -/
def listClient (items : List PyVal) : Client :=
  ⟨fun _ => .list items, fun _ => .list items, fun _ => .list items⟩

/-- A client whose payload has an empty choice list. -/
def emptyChoicesClient : Client :=
  let payload : PyVal := .dict [("data", .dict [("choices", .list [])])]
  ⟨fun _ => payload, fun _ => payload, fun _ => payload⟩

/-- Modelled from the spec: `get_from_dict_or_env` and the framework's
root-validator hook are library code outside this repository.  Per the
spec, the credential is taken from the explicitly supplied value when
present, otherwise from the environment variable, and construction
fails when neither is set. -/
def get_from_dict_or_env (explicitKey : Option String)
    (envKey : Option String) : Except PyErr String :=
  match explicitKey with
  | some k => .ok k
  | Option.none =>
    match envKey with
    | some v => .ok v
    | Option.none =>
      .error (.valueError "zhipuai_api_key not found in dict or environment")

/-- `validate_enviroment`: resolve the credential (explicit value or
environment), then require the `zhipuai` package; runs at construction
time, before any call.  Returns the resolved credential. -/
def validate_enviroment (explicitKey : Option String)
    (envKey : Option String) (zhipuaiInstalled : Bool) :
    Except PyErr String :=
  match get_from_dict_or_env explicitKey envKey with
  | .error e => .error e
  | .ok key =>
    if zhipuaiInstalled then .ok key
    else
      .error (.valueError
        "zhipuai package not found, please install it with pip install zhipuai")

deriving instance DecidableEq for Except

/-! ### Lookup and merge lemmas for the dict model -/

theorem dictGet_nil (k : String) : dictGet [] k = Option.none := rfl

theorem dictGet_cons (p : String × PyVal) (d : PyDict) (k : String) :
    dictGet (p :: d) k = if p.1 = k then some p.2 else dictGet d k := by
  by_cases h : p.1 = k <;> simp [dictGet, List.find?, h]

theorem dictGet_dictSet (d : PyDict) (k : String) (v : PyVal) (k' : String) :
    dictGet (dictSet d k v) k' = if k = k' then some v else dictGet d k' := by
  induction d with
  | nil => simp [dictSet, dictGet_cons, dictGet_nil]
  | cons p d ih =>
    rw [dictSet]
    by_cases hpk : p.1 = k
    · rw [if_pos hpk, dictGet_cons, dictGet_cons]
      by_cases h : k = k'
      · simp [h]
      · rw [hpk]
        simp [h]
    · rw [if_neg hpk, dictGet_cons, dictGet_cons, ih]
      by_cases h : k = k'
      · have hpk' : ¬ p.1 = k' := h ▸ hpk
        simp [h, hpk']
      · simp [h]

theorem dictGet_eq_none_iff (d : PyDict) (k : String) :
    dictGet d k = Option.none ↔ ∀ q ∈ d, q.1 ≠ k := by
  simp [dictGet, List.find?_eq_none]

theorem mem_keys_dictSet (d : PyDict) (k : String) (v : PyVal) (x : String) :
    x ∈ (dictSet d k v).map Prod.fst ↔ x ∈ d.map Prod.fst ∨ x = k := by
  induction d with
  | nil => simp [dictSet]
  | cons p d ih =>
    rw [dictSet]
    by_cases hpk : p.1 = k
    · rw [if_pos hpk]
      simp [hpk]
      tauto
    · rw [if_neg hpk]
      simp [ih]
      tauto

theorem pyDictWF_dictSet (d : PyDict) (k : String) (v : PyVal)
    (h : PyDictWF d) : PyDictWF (dictSet d k v) := by
  induction d with
  | nil => simp [dictSet, PyDictWF]
  | cons p d ih =>
    unfold PyDictWF at h ⊢
    rw [List.map_cons, List.nodup_cons] at h
    rw [dictSet]
    by_cases hpk : p.1 = k
    · rw [if_pos hpk, List.map_cons, List.nodup_cons]
      exact ⟨hpk ▸ h.1, h.2⟩
    · rw [if_neg hpk, List.map_cons, List.nodup_cons]
      refine ⟨?_, ih h.2⟩
      rw [mem_keys_dictSet]
      rintro (hmem | hmem)
      · exact h.1 hmem
      · exact hpk hmem

theorem pyDictWF_dictMerge (a b : PyDict) (h : PyDictWF a) :
    PyDictWF (dictMerge a b) := by
  induction b generalizing a with
  | nil => exact h
  | cons p b ih => exact ih _ (pyDictWF_dictSet _ _ _ h)

theorem dictGet_dictMerge_of_none (a b : PyDict) (k : String)
    (h : dictGet b k = Option.none) :
    dictGet (dictMerge a b) k = dictGet a k := by
  induction b generalizing a with
  | nil => rfl
  | cons p b ih =>
    rw [dictGet_cons] at h
    by_cases hpk : p.1 = k
    · simp [hpk] at h
    · rw [if_neg hpk] at h
      rw [dictMerge, ih _ h, dictGet_dictSet, if_neg (fun hh => hpk hh)]

theorem dictGet_dictMerge_of_some (a b : PyDict) (k : String) (v : PyVal)
    (hb : PyDictWF b) (h : dictGet b k = some v) :
    dictGet (dictMerge a b) k = some v := by
  induction b generalizing a with
  | nil => simp [dictGet_nil] at h
  | cons p b ih =>
    rw [dictGet_cons] at h
    unfold PyDictWF at hb
    rw [List.map_cons, List.nodup_cons] at hb
    by_cases hpk : p.1 = k
    · rw [if_pos hpk] at h
      have hb' : dictGet b k = Option.none := by
        rw [dictGet_eq_none_iff]
        intro q hq hqk
        exact hb.1 (hpk ▸ hqk ▸ List.mem_map_of_mem Prod.fst hq)
      rw [dictMerge, dictGet_dictMerge_of_none _ _ _ hb', dictGet_dictSet,
        if_pos hpk, h]
    · rw [if_neg hpk] at h
      rw [dictMerge]
      exact ih _ hb.2 h

/-- The base sampling parameters of `_default_params` form a
well-formed dict, whatever the configuration's field values are. -/
theorem pyDictWF_normalParams (self : ZhipuAILLM) :
    PyDictWF [("streaming", pyOfOptBool self.streaming),
      ("top_p", self.top_p), ("temperature", self.temperature),
      ("request_id", self.request_id)] := by
  unfold PyDictWF
  simp [List.nodup_cons]

/-- `_default_params` always yields a well-formed dict, even when
`model_kwargs` is degenerate. -/
theorem pyDictWF_defaultParams (self : ZhipuAILLM) :
    PyDictWF self.defaultParams :=
  pyDictWF_dictMerge _ _ (pyDictWF_normalParams self)

/-! ### Behaviour of the streaming loops -/

theorem streamLoop_textItems (rm : Bool) (items : List PyVal)
    (h : ∀ v ∈ items, isTextItem v = true) :
    streamLoop rm items =
      .ok (items.flatMap (fun v =>
        match v with
        | PyVal.str s =>
          if s.isEmpty then []
          else StreamEv.yielded s :: (if rm then [StreamEv.callback s] else [])
        | _ => [])) := by
  induction items with
  | nil => rfl
  | cons v rest ih =>
    have hv := h v (List.mem_cons_self v rest)
    have hrest := ih (fun w hw => h w (List.mem_cons_of_mem v hw))
    match v with
    | PyVal.str s =>
      by_cases hs : s.isEmpty
      · simp [streamLoop, pyTruthy, hs, hrest, List.flatMap_cons]
      · simp [streamLoop, pyTruthy, hs, chunkText, hrest, List.flatMap_cons]
    | PyVal.none =>
      simp [streamLoop, pyTruthy, hrest, List.flatMap_cons]
    | PyVal.bool b => simp [isTextItem] at hv
    | PyVal.int n => simp [isTextItem] at hv
    | PyVal.list xs => simp [isTextItem] at hv
    | PyVal.dict kvs => simp [isTextItem] at hv

theorem streamLoop_strings (rm : Bool) (ts : List String)
    (h : ∀ t ∈ ts, t.isEmpty = false) :
    streamLoop rm (ts.map PyVal.str) =
      .ok (ts.flatMap (fun t =>
        StreamEv.yielded t :: (if rm then [StreamEv.callback t] else []))) := by
  induction ts with
  | nil => rfl
  | cons t ts ih =>
    have ht := h t (List.mem_cons_self t ts)
    have hrest := ih (fun w hw => h w (List.mem_cons_of_mem t hw))
    simp [streamLoop, pyTruthy, ht, chunkText, hrest, List.flatMap_cons]

theorem yieldedTexts_fragments (rm : Bool) (ts : List String) :
    yieldedTexts (ts.flatMap (fun t =>
      StreamEv.yielded t :: (if rm then [StreamEv.callback t] else []))) = ts := by
  induction ts with
  | nil => rfl
  | cons t ts ih =>
    cases rm <;> simp [yieldedTexts, List.flatMap_cons] at ih ⊢ <;> exact ih

theorem astreamLoop_items (rm : Bool) (ts : List String) :
    astreamLoop rm (ts.map astreamItem) =
      .ok (ts.flatMap (fun t =>
        StreamEv.yielded t :: (if rm then [StreamEv.callback t] else []))) := by
  induction ts with
  | nil => rfl
  | cons t ts ih =>
    simp [astreamLoop, astreamItem, pyTruthy, pyGetKey, List.find?, chunkText,
      ih, List.flatMap_cons]
    rfl

/-! ### C1 — non-streaming result extraction -/

/-- C1, counterexample.  On the response choices
`[{"content": "\"hi there\" "}]` the non-streaming call returns
`hi there"` — the trailing double quote survives, because
`.strip('"')` runs before `.strip(" ")` and the trailing space shields
the quote — not `hi there` as the claim states. -/
theorem call_strip_example_cex :
    cfgNS.call (oneShotClient "\"hi there\" ") "Tell me a joke." Option.none false [] =
      .ok "hi there\"" ∧
    cfgNS.call (oneShotClient "\"hi there\" ") "Tell me a joke." Option.none false [] ≠
      .ok "hi there" :=
  ⟨rfl, by decide⟩

/-- C1, amended.  For every response payload, the synchronous
non-streaming call returns the `content` field of the last element of
the choice list with surrounding double-quote characters stripped
first, then surrounding space characters stripped from that result
(`.strip('"').strip(" ")`, in that order, one pass each). -/
theorem call_nonstreaming_strips_last_choice :
    ∀ (self : ZhipuAILLM) (client : Client) (prompt : String)
      (stop : Option (List String)) (rm : Bool) (kwargs : PyDict)
      (d cs last : PyVal) (s : String),
      self.streamingOn = false →
      pyGetKey (client.invoke (self.convertPromptMsgParams prompt kwargs)) "data" = .ok d →
      pyGetKey d "choices" = .ok cs →
      pyGetLast cs = .ok last →
      pyGetKey last "content" = .ok (PyVal.str s) →
      self.call client prompt stop rm kwargs = .ok (pyStrip (pyStrip s ['"']) [' ']) := by
  intro self client prompt stop rm kwargs d cs last s hs h1 h2 h3 h4
  simp [ZhipuAILLM.call, hs, h1, h2, h3, h4]

/-- Witness for C1: the amended theorem applied to the example payload,
with the two-stage strip evaluated to `hi there"`. -/
theorem call_nonstreaming_strips_last_choice_witness :
    (cfgNS.streamingOn = false ∧
     pyGetKey ((oneShotClient "\"hi there\" ").invoke
         (cfgNS.convertPromptMsgParams "Tell me a joke." [])) "data" =
       .ok (PyVal.dict [("choices",
         PyVal.list [PyVal.dict [("content", PyVal.str "\"hi there\" ")]])]) ∧
     pyGetKey (PyVal.dict [("choices",
         PyVal.list [PyVal.dict [("content", PyVal.str "\"hi there\" ")]])]) "choices" =
       .ok (PyVal.list [PyVal.dict [("content", PyVal.str "\"hi there\" ")]]) ∧
     pyGetLast (PyVal.list [PyVal.dict [("content", PyVal.str "\"hi there\" ")]]) =
       .ok (PyVal.dict [("content", PyVal.str "\"hi there\" ")]) ∧
     pyGetKey (PyVal.dict [("content", PyVal.str "\"hi there\" ")]) "content" =
       .ok (PyVal.str "\"hi there\" ")) ∧
    cfgNS.call (oneShotClient "\"hi there\" ") "Tell me a joke." Option.none false [] =
      .ok (pyStrip (pyStrip "\"hi there\" " ['"']) [' ']) ∧
    pyStrip (pyStrip "\"hi there\" " ['"']) [' '] = "hi there\"" :=
  ⟨⟨rfl, rfl, rfl, rfl, rfl⟩,
   call_nonstreaming_strips_last_choice cfgNS (oneShotClient "\"hi there\" ")
     "Tell me a joke." Option.none false [] _ _ _ _ rfl rfl rfl rfl rfl,
   rfl⟩

/-! ### C2 — merge precedence -/

/-- C2, counterexample.  With extra keyword arguments
`{"model": "model-from-kwargs"}` in the configuration, the merged
request maps `"model"` to the extra-kwargs value, not to the
configuration's model name: `{prompt, model}` sits at the lowest
precedence in `_convert_prompt_msg_params`, below `_default_params`,
contrary to the claimed order. -/
theorem merge_model_shadow_cex :
    strOfVal (dictGet ((mkCfg [("model", PyVal.str "model-from-kwargs")] "chatglm_turbo"
        (some false)).convertPromptMsgParams "hello" []) "model") =
      some "model-from-kwargs" ∧
    dictGet ((mkCfg [("model", PyVal.str "model-from-kwargs")] "chatglm_turbo"
        (some false)).convertPromptMsgParams "hello" []) "model" ≠
      some (PyVal.str "chatglm_turbo") :=
  ⟨rfl, fun h => absurd (congrArg strOfVal h) (by decide)⟩

/-- C2, amended.  Keys are resolved in precedence order low-to-high:
`{prompt, model}` first, then the default parameters (base sampling
parameters updated with the configuration's extra keyword arguments),
then the caller-supplied overrides.  Hence every key in the overrides
overrides the defaults, a like-named default overrides `prompt`/`model`,
and the merged mapping contains the prompt and the model name whenever
no like-named key occurs in the defaults or the overrides. -/
theorem merge_precedence :
    ∀ (self : ZhipuAILLM) (prompt : String) (kwargs : PyDict) (k : String) (v : PyVal),
      PyDictWF kwargs →
      (dictGet kwargs k = some v →
        dictGet (self.convertPromptMsgParams prompt kwargs) k = some v) ∧
      (dictGet kwargs k = Option.none → dictGet self.defaultParams k = some v →
        dictGet (self.convertPromptMsgParams prompt kwargs) k = some v) ∧
      (dictGet kwargs "prompt" = Option.none →
        dictGet self.defaultParams "prompt" = Option.none →
        dictGet (self.convertPromptMsgParams prompt kwargs) "prompt" =
          some (PyVal.str prompt)) ∧
      (dictGet kwargs "model" = Option.none →
        dictGet self.defaultParams "model" = Option.none →
        dictGet (self.convertPromptMsgParams prompt kwargs) "model" =
          some (PyVal.str self.model)) := by
  intro self prompt kwargs k v hwf
  refine ⟨?_, ?_, ?_, ?_⟩
  · intro h
    unfold ZhipuAILLM.convertPromptMsgParams
    exact dictGet_dictMerge_of_some _ _ _ _ hwf h
  · intro h1 h2
    unfold ZhipuAILLM.convertPromptMsgParams
    rw [dictGet_dictMerge_of_none _ _ _ h1]
    exact dictGet_dictMerge_of_some _ _ _ _ (pyDictWF_defaultParams self) h2
  · intro h1 h2
    unfold ZhipuAILLM.convertPromptMsgParams
    rw [dictGet_dictMerge_of_none _ _ _ h1, dictGet_dictMerge_of_none _ _ _ h2]
    rfl
  · intro h1 h2
    unfold ZhipuAILLM.convertPromptMsgParams
    rw [dictGet_dictMerge_of_none _ _ _ h1, dictGet_dictMerge_of_none _ _ _ h2]
    rfl

/-- Witness for C2: the amended precedence theorem applied to a
configuration with no extra kwargs and a per-call `temperature`
override. -/
theorem merge_precedence_witness :
    PyDictWF [("temperature", PyVal.str "t-override")] ∧
    ((dictGet [("temperature", PyVal.str "t-override")] "temperature" =
        some (PyVal.str "t-override") →
      dictGet ((mkCfg [] "chatglm_turbo" (some false)).convertPromptMsgParams "hello"
        [("temperature", PyVal.str "t-override")]) "temperature" =
        some (PyVal.str "t-override")) ∧
     (dictGet [("temperature", PyVal.str "t-override")] "temperature" = Option.none →
      dictGet (mkCfg [] "chatglm_turbo" (some false)).defaultParams "temperature" =
        some (PyVal.str "t-override") →
      dictGet ((mkCfg [] "chatglm_turbo" (some false)).convertPromptMsgParams "hello"
        [("temperature", PyVal.str "t-override")]) "temperature" =
        some (PyVal.str "t-override")) ∧
     (dictGet [("temperature", PyVal.str "t-override")] "prompt" = Option.none →
      dictGet (mkCfg [] "chatglm_turbo" (some false)).defaultParams "prompt" = Option.none →
      dictGet ((mkCfg [] "chatglm_turbo" (some false)).convertPromptMsgParams "hello"
        [("temperature", PyVal.str "t-override")]) "prompt" = some (PyVal.str "hello")) ∧
     (dictGet [("temperature", PyVal.str "t-override")] "model" = Option.none →
      dictGet (mkCfg [] "chatglm_turbo" (some false)).defaultParams "model" = Option.none →
      dictGet ((mkCfg [] "chatglm_turbo" (some false)).convertPromptMsgParams "hello"
        [("temperature", PyVal.str "t-override")]) "model" =
        some (PyVal.str "chatglm_turbo"))) :=
  ⟨by decide,
   merge_precedence (mkCfg [] "chatglm_turbo" (some false)) "hello"
     [("temperature", PyVal.str "t-override")] "temperature"
     (PyVal.str "t-override") (by decide)⟩

/-! ### C3 — asynchronous non-streaming call -/

/-- C3: with streaming disabled, `_acall` awaits the client once into
`response` but then returns the never-assigned name `response_payload`,
so every asynchronous non-streaming call fails with a `NameError`
instead of returning the text extracted from the awaited response —
the defect the spec flags as an open question. -/
theorem acall_nonstreaming_nameerror :
    ∀ (self : ZhipuAILLM) (client : Client) (prompt : String)
      (stop : Option (List String)) (rm : Bool) (kwargs : PyDict),
      self.streamingOn = false →
      self.acall client prompt stop rm kwargs =
        .error (PyErr.nameError "response_payload") := by
  intro self client prompt stop rm kwargs hs
  simp [ZhipuAILLM.acall, hs]

/-- Witness for C3: on a client whose payload would make the
synchronous call return `"hi"`, the asynchronous call raises the
`NameError` instead. -/
theorem acall_nonstreaming_nameerror_witness :
    cfgNS.streamingOn = false ∧
    cfgNS.acall (oneShotClient "hi") "hello" Option.none false [] =
      .error (PyErr.nameError "response_payload") ∧
    cfgNS.call (oneShotClient "hi") "hello" Option.none false [] = .ok "hi" :=
  ⟨rfl,
   acall_nonstreaming_nameerror cfgNS (oneShotClient "hi") "hello" Option.none false [] rfl,
   rfl⟩

/-! ### C4 — asynchronous streaming variant -/

/-- C4, counterexample.  On the same client yielding the single
non-empty text item `"He"`, the synchronous streaming variant yields
the fragment `"He"` while the asynchronous variant fails with a
`TypeError` — `res["data"]` on a plain string — so the two variants do
not satisfy the same contract. -/
theorem astream_not_stream_contract_cex :
    cfgS.streamEvents (listClient [PyVal.str "He"]) "hello" Option.none false [] =
      .ok [StreamEv.yielded "He"] ∧
    cfgS.astreamEvents (listClient [PyVal.str "He"]) "hello" Option.none false [] =
      .error PyErr.typeError ∧
    cfgS.astreamEvents (listClient [PyVal.str "He"]) "hello" Option.none false [] ≠
      cfgS.streamEvents (listClient [PyVal.str "He"]) "hello" Option.none false [] :=
  ⟨rfl, rfl, by decide⟩

/-- C4, amended.  The asynchronous streaming variant expects structured
payload items and emits, for each item, one fragment containing the
value at `item["data"]["choices"]["content"]` — a string-keyed lookup
on the `choices` value, unlike the synchronous variant, which emits
each truthy item itself as the fragment text.  Fragments are emitted in
the order the client yields the items, with one callback invocation
after each fragment when a run manager is supplied. -/
theorem astream_extracts_choices_content :
    ∀ (self : ZhipuAILLM) (client : Client) (prompt : String)
      (stop : Option (List String)) (rm : Bool) (kwargs : PyDict) (ts : List String),
      client.ado (self.convertPromptMsgParams prompt kwargs) =
        PyVal.list (ts.map astreamItem) →
      self.astreamEvents client prompt stop rm kwargs =
        .ok (ts.flatMap (fun t =>
          StreamEv.yielded t :: (if rm then [StreamEv.callback t] else []))) := by
  intro self client prompt stop rm kwargs ts hado
  simp only [ZhipuAILLM.astreamEvents, hado, pyIter]
  exact astreamLoop_items rm ts

/-- Witness for C4: two structured items with contents `He`, `llo`
produce the two fragments in order, each followed by its callback. -/
theorem astream_extracts_choices_content_witness :
    (listClient (["He", "llo"].map astreamItem)).ado
        (cfgS.convertPromptMsgParams "hello" []) =
      PyVal.list (["He", "llo"].map astreamItem) ∧
    cfgS.astreamEvents (listClient (["He", "llo"].map astreamItem))
        "hello" Option.none true [] =
      .ok (["He", "llo"].flatMap (fun t =>
        StreamEv.yielded t :: (if true then [StreamEv.callback t] else []))) ∧
    cfgS.astreamEvents (listClient (["He", "llo"].map astreamItem))
        "hello" Option.none true [] =
      .ok [StreamEv.yielded "He", StreamEv.callback "He",
           StreamEv.yielded "llo", StreamEv.callback "llo"] :=
  ⟨rfl,
   astream_extracts_choices_content cfgS (listClient (["He", "llo"].map astreamItem))
     "hello" Option.none true [] ["He", "llo"] rfl,
   rfl⟩

/-! ### C5 — streaming aggregation round trip -/

/-- C5, counterexample.  With the single fragment `"hi"` (quotes
included), the streaming call returns the concatenation `"hi"` with its
quotes, while the non-streaming call on a client delivering the same
whole text in one shot strips the quotes and returns `hi` — the
round-trip equality fails. -/
theorem streaming_roundtrip_cex :
    cfgS.call (listClient [PyVal.str "\"hi\""]) "hello" Option.none false [] =
      .ok "\"hi\"" ∧
    cfgNS.call (oneShotClient "\"hi\"") "hello" Option.none false [] = .ok "hi" ∧
    cfgS.call (listClient [PyVal.str "\"hi\""]) "hello" Option.none false [] ≠
      cfgNS.call (oneShotClient "\"hi\"") "hello" Option.none false [] :=
  ⟨rfl, rfl, by decide⟩

/-- C5, amended.  The synchronous call with streaming enabled returns
the concatenation of all fragment texts in order, and this
concatenation equals the result of a non-streaming call on a client
delivering the whole text in one shot whenever the concatenated text is
unchanged by the non-streaming path's quote-then-space stripping
(otherwise the non-streaming call additionally strips those surrounding
characters). -/
theorem call_streaming_concat_roundtrip :
    ∀ (selfS selfN : ZhipuAILLM) (clientS clientN : Client) (prompt : String)
      (stop : Option (List String)) (rm : Bool) (kwargs : PyDict) (ts : List String),
      selfS.streamingOn = true →
      selfN.streamingOn = false →
      clientS.invoke (selfS.convertPromptMsgParams prompt kwargs) =
        PyVal.list (ts.map PyVal.str) →
      (∀ t ∈ ts, t.isEmpty = false) →
      clientN.invoke (selfN.convertPromptMsgParams prompt kwargs) =
        PyVal.dict [("data", PyVal.dict [("choices",
          PyVal.list [PyVal.dict [("content", PyVal.str (String.join ts))]])])] →
      pyStrip (pyStrip (String.join ts) ['"']) [' '] = String.join ts →
      selfS.call clientS prompt stop rm kwargs = .ok (String.join ts) ∧
      selfN.call clientN prompt stop rm kwargs = .ok (String.join ts) := by
  intro selfS selfN clientS clientN prompt stop rm kwargs ts hS hN hinvS hts hinvN hstrip
  constructor
  · simp only [ZhipuAILLM.call, hS, if_true, ZhipuAILLM.streamEvents, hinvS, pyIter,
      streamLoop_strings rm ts hts, yieldedTexts_fragments]
  · simp [ZhipuAILLM.call, hN, hinvN, pyGetKey, List.find?, pyGetLast, hstrip]

/-- Witness for C5: the spec's own example — fragments `He`, `llo`
concatenate to `Hello`, and the one-shot non-streaming call returns the
same string. -/
theorem call_streaming_concat_roundtrip_witness :
    (cfgS.streamingOn = true ∧
     cfgNS.streamingOn = false ∧
     (listClient [PyVal.str "He", PyVal.str "llo"]).invoke
         (cfgS.convertPromptMsgParams "hello" []) =
       PyVal.list (["He", "llo"].map PyVal.str) ∧
     (∀ t ∈ ["He", "llo"], t.isEmpty = false) ∧
     (oneShotClient "Hello").invoke (cfgNS.convertPromptMsgParams "hello" []) =
       PyVal.dict [("data", PyVal.dict [("choices",
         PyVal.list [PyVal.dict [("content",
           PyVal.str (String.join ["He", "llo"]))]])])] ∧
     pyStrip (pyStrip (String.join ["He", "llo"]) ['"']) [' '] =
       String.join ["He", "llo"]) ∧
    (cfgS.call (listClient [PyVal.str "He", PyVal.str "llo"]) "hello"
        Option.none false [] = .ok (String.join ["He", "llo"]) ∧
     cfgNS.call (oneShotClient "Hello") "hello" Option.none false [] =
       .ok (String.join ["He", "llo"])) ∧
    String.join ["He", "llo"] = "Hello" :=
  ⟨⟨rfl, rfl, rfl, by decide, rfl, rfl⟩,
   call_streaming_concat_roundtrip cfgS cfgNS
     (listClient [PyVal.str "He", PyVal.str "llo"]) (oneShotClient "Hello")
     "hello" Option.none false [] ["He", "llo"] rfl rfl rfl (by decide) rfl rfl,
   rfl⟩

/-! ### C6 — synchronous streaming behaviour -/

/-- C6: for every sequence of string-or-`None` items, the synchronous
streaming variant yields one fragment per non-empty item with that
item's text, immediately followed by exactly one callback invocation
with the same text when a run manager was supplied, and emits nothing —
no fragment, no callback — for empty or `None` items. -/
theorem stream_fragments_and_callbacks :
    ∀ (self : ZhipuAILLM) (client : Client) (prompt : String)
      (stop : Option (List String)) (rm : Bool) (kwargs : PyDict) (items : List PyVal),
      client.invoke (self.convertPromptMsgParams prompt kwargs) = PyVal.list items →
      (∀ v ∈ items, isTextItem v = true) →
      self.streamEvents client prompt stop rm kwargs =
        .ok (items.flatMap (fun v =>
          match v with
          | PyVal.str s =>
            if s.isEmpty then []
            else StreamEv.yielded s :: (if rm then [StreamEv.callback s] else [])
          | _ => [])) := by
  intro self client prompt stop rm kwargs items hinv h
  simp only [ZhipuAILLM.streamEvents, hinv, pyIter]
  exact streamLoop_textItems rm items h

/-- Witness for C6: the items `["He", "", None, "llo"]` with a run
manager produce exactly yield `He`, callback `He`, yield `llo`,
callback `llo` — the falsy items are skipped. -/
theorem stream_fragments_and_callbacks_witness :
    ((listClient [PyVal.str "He", PyVal.str "", PyVal.none, PyVal.str "llo"]).invoke
       (cfgS.convertPromptMsgParams "hello" []) =
         PyVal.list [PyVal.str "He", PyVal.str "", PyVal.none, PyVal.str "llo"] ∧
     (∀ v ∈ [PyVal.str "He", PyVal.str "", PyVal.none, PyVal.str "llo"],
       isTextItem v = true)) ∧
    cfgS.streamEvents (listClient [PyVal.str "He", PyVal.str "", PyVal.none, PyVal.str "llo"])
        "hello" Option.none true [] =
      .ok ([PyVal.str "He", PyVal.str "", PyVal.none, PyVal.str "llo"].flatMap (fun v =>
        match v with
        | PyVal.str s =>
          if s.isEmpty then []
          else StreamEv.yielded s :: (if true then [StreamEv.callback s] else [])
        | _ => [])) ∧
    cfgS.streamEvents (listClient [PyVal.str "He", PyVal.str "", PyVal.none, PyVal.str "llo"])
        "hello" Option.none true [] =
      .ok [StreamEv.yielded "He", StreamEv.callback "He",
           StreamEv.yielded "llo", StreamEv.callback "llo"] :=
  ⟨⟨rfl, by decide⟩,
   stream_fragments_and_callbacks cfgS
     (listClient [PyVal.str "He", PyVal.str "", PyVal.none, PyVal.str "llo"])
     "hello" Option.none true [] _ rfl (by decide),
   rfl⟩

/-! ### C7 — empty choice list -/

/-- C7: with streaming disabled and a response whose choice list is
empty, the `[-1]` subscript fails and the call returns exactly the
`IndexError` — not a wrapped or recovered value. -/
theorem call_empty_choices_index_error :
    ∀ (self : ZhipuAILLM) (client : Client) (prompt : String)
      (stop : Option (List String)) (rm : Bool) (kwargs : PyDict) (d : PyVal),
      self.streamingOn = false →
      pyGetKey (client.invoke (self.convertPromptMsgParams prompt kwargs)) "data" = .ok d →
      pyGetKey d "choices" = .ok (PyVal.list []) →
      self.call client prompt stop rm kwargs = .error PyErr.indexError := by
  intro self client prompt stop rm kwargs d hs h1 h2
  simp [ZhipuAILLM.call, hs, h1, h2, pyGetLast]

/-- Witness for C7: a concrete client with an empty choice list makes
the non-streaming call fail with the `IndexError`. -/
theorem call_empty_choices_index_error_witness :
    (cfgNS.streamingOn = false ∧
     pyGetKey (emptyChoicesClient.invoke (cfgNS.convertPromptMsgParams "hello" [])) "data" =
       .ok (PyVal.dict [("choices", PyVal.list [])]) ∧
     pyGetKey (PyVal.dict [("choices", PyVal.list [])]) "choices" = .ok (PyVal.list [])) ∧
    cfgNS.call emptyChoicesClient "hello" Option.none false [] = .error PyErr.indexError :=
  ⟨⟨rfl, rfl, rfl⟩,
   call_empty_choices_index_error cfgNS emptyChoicesClient "hello" Option.none false [] _
     rfl rfl rfl⟩

/-! ### C8 — credential validation at construction time -/

/-- C8: with no explicit credential and no environment value,
construction-time validation fails with the configuration error — for
any state of the dependency check — and the credential field has no
influence on the behaviour of a call: the call functions never read it,
so a missing credential cannot surface at call time. -/
theorem missing_credential_fails_at_construction :
    (∀ installed : Bool, validate_enviroment Option.none Option.none installed =
      .error (PyErr.valueError "zhipuai_api_key not found in dict or environment")) ∧
    (∀ (mkw : PyDict) (model : String) (key1 key2 : Option String)
       (inc strm : Option Bool) (rt : Option Int) (tp tmp rid : PyVal)
       (client : Client) (prompt : String) (stop : Option (List String))
       (rm : Bool) (kwargs : PyDict),
      (ZhipuAILLM.mk mkw model key1 inc strm rt tp tmp rid).call client prompt stop rm kwargs =
        (ZhipuAILLM.mk mkw model key2 inc strm rt tp tmp rid).call client prompt stop rm kwargs) :=
  ⟨fun _ => rfl, fun _ _ _ _ _ _ _ _ _ _ _ _ _ _ _ => rfl⟩

/-! ### C9 — the stop argument is inert -/

/-- C9: the request merger takes no stop argument at all, and every
entry point returns the same result for any two values of the optional
stop-sequence list: the parameter is accepted but never read. -/
theorem stop_has_no_effect :
    ∀ (self : ZhipuAILLM) (client : Client) (prompt : String)
      (stop1 stop2 : Option (List String)) (rm : Bool) (kwargs : PyDict),
      self.call client prompt stop1 rm kwargs = self.call client prompt stop2 rm kwargs ∧
      self.streamEvents client prompt stop1 rm kwargs =
        self.streamEvents client prompt stop2 rm kwargs ∧
      self.acall client prompt stop1 rm kwargs = self.acall client prompt stop2 rm kwargs ∧
      self.astreamEvents client prompt stop1 rm kwargs =
        self.astreamEvents client prompt stop2 rm kwargs :=
  fun _ _ _ _ _ _ _ => ⟨rfl, rfl, rfl, rfl⟩

/-! ### C10 — extra keyword arguments versus base parameters -/

/-- C10, counterexample.  When the caller's per-call overrides also
contain the key, the override — not the extra-kwargs value — reaches
the merged request: the extra keyword arguments do not win in every
merged request. -/
theorem model_kwargs_not_final_cex :
    strOfVal (dictGet ((mkCfg [("temperature", PyVal.str "from-model-kwargs")]
        "chatglm_turbo" (some false)).convertPromptMsgParams "hello"
        [("temperature", PyVal.str "from-call-kwargs")]) "temperature") =
      some "from-call-kwargs" ∧
    dictGet ((mkCfg [("temperature", PyVal.str "from-model-kwargs")]
        "chatglm_turbo" (some false)).convertPromptMsgParams "hello"
        [("temperature", PyVal.str "from-call-kwargs")]) "temperature" ≠
      some (PyVal.str "from-model-kwargs") :=
  ⟨rfl, fun h => absurd (congrArg strOfVal h) (by decide)⟩

/-- C10, amended.  When a key appears both among the base sampling
parameters and in the configuration's extra keyword arguments, the
extra-kwargs value wins in the default-parameter mapping, and it
reaches every merged request whose per-call overrides do not themselves
contain the key (per-call overrides take final precedence). -/
theorem model_kwargs_override_base_params :
    ∀ (self : ZhipuAILLM) (k : String) (v : PyVal),
      k ∈ ["streaming", "top_p", "temperature", "request_id"] →
      PyDictWF self.model_kwargs →
      dictGet self.model_kwargs k = some v →
      dictGet self.defaultParams k = some v ∧
      ∀ (prompt : String) (kwargs : PyDict), dictGet kwargs k = Option.none →
        dictGet (self.convertPromptMsgParams prompt kwargs) k = some v := by
  intro self k v hk hwf h
  have hdef : dictGet self.defaultParams k = some v := by
    unfold ZhipuAILLM.defaultParams
    exact dictGet_dictMerge_of_some _ _ _ _ hwf h
  refine ⟨hdef, ?_⟩
  intro prompt kwargs hkw
  unfold ZhipuAILLM.convertPromptMsgParams
  rw [dictGet_dictMerge_of_none _ _ _ hkw]
  exact dictGet_dictMerge_of_some _ _ _ _ (pyDictWF_defaultParams self) hdef

/-- Witness for C10: `temperature` set in the extra keyword arguments
overrides the base default and reaches the merged request when the
caller does not override it. -/
theorem model_kwargs_override_base_params_witness :
    ("temperature" ∈ ["streaming", "top_p", "temperature", "request_id"] ∧
     PyDictWF [("temperature", PyVal.str "from-model-kwargs")] ∧
     dictGet [("temperature", PyVal.str "from-model-kwargs")] "temperature" =
       some (PyVal.str "from-model-kwargs")) ∧
    (dictGet (mkCfg [("temperature", PyVal.str "from-model-kwargs")] "chatglm_turbo"
        (some false)).defaultParams "temperature" = some (PyVal.str "from-model-kwargs") ∧
     ∀ (prompt : String) (kwargs : PyDict), dictGet kwargs "temperature" = Option.none →
       dictGet ((mkCfg [("temperature", PyVal.str "from-model-kwargs")] "chatglm_turbo"
         (some false)).convertPromptMsgParams prompt kwargs) "temperature" =
         some (PyVal.str "from-model-kwargs")) :=
  ⟨⟨by decide, by decide, rfl⟩,
   model_kwargs_override_base_params
     (mkCfg [("temperature", PyVal.str "from-model-kwargs")] "chatglm_turbo" (some false))
     "temperature" (PyVal.str "from-model-kwargs") (by decide) (by decide) rfl⟩

end ZhipuSpec
